import Mathlib

/-!
Shallow embedding of the session/authentication/audit core of the
Urology-AI research-dashboard backend (FastAPI + SQLAlchemy), covering:

* `src/backend/core/audit.py`   — `AuditLog`, `log_audit_event`, `get_audit_logs`
* `src/backend/core/auth.py`    — `create_access_token`, `verify_token`, `get_current_user`
* `src/backend/core/security.py`— `encrypt_sensitive_data`, `decrypt_sensitive_data`
* `src/backend/models/user.py`  — `hash_password_direct`, `verify_password_direct`,
                                  `User.verify_password`
* `src/backend/routes/auth.py`  — `login`
* `src/backend/routes/two_factor.py`      — `verify_2fa` (confirm), `disable_2fa`
* `src/backend/routes/auth_2fa_verify.py` — `verify_2fa_login`

Modelling conventions:

* `datetime.utcnow()` is modelled as a natural number of seconds; the several
  `utcnow()` calls made during one request (microseconds apart) are modelled as
  a single instant `now`.  `timedelta(minutes=m)` is `60 * m` seconds.
* The relational store is a record of lists; SQLAlchemy `query(...).first()` is
  `List.find?` over insertion order, a mutation of the found row is an in-place
  replacement of the first matching row, and `db.commit()` on the happy path
  makes the pending writes the new state.  `log_audit_event` additionally takes
  a `commitOk` oracle so its persistence write can fail, mirroring the
  `try/except` in the source.
* Library primitives that live outside this repository are modelled by
  idealized executable counterparts that expose exactly the interface the
  repository code relies on: Fernet is an authenticated encryption scheme
  (a ciphertext carries a tamper-evident tag; decryption recomputes and
  compares it), bcrypt is a collision-free salted hash of the first 72 bytes
  of the UTF-8 encoding, a TOTP code is a collision-free function of the
  secret and the 30-second time window, and `json.dumps` on the small
  quote-free payloads used here is a tagged value.
* Machine integers do not overflow in any code path modelled here, so `Nat`
  is used without wraparound.
-/

/-- A decrypted plaintext as the repository uses it: either a plain string
(TOTP secret, REDCap token) or a JSON-serialized list of strings (backup
codes).  Modelling the serialized form as a tagged value avoids a string-level
JSON parser; the backup codes are quote-free 8-character base32 strings, so
`json.dumps` / `json.loads` are mutually inverse on them. -/
inductive PlainData where
  | str (s : String)
  | strList (l : List String)
deriving DecidableEq, Repr

/-- Model of a Fernet ciphertext (`cryptography.fernet`): the key it was
produced under, the payload, and an authentication tag.  The tag of an
honestly produced ciphertext is `(key, payload)` — the idealization of an
unforgeable HMAC: a tag matches exactly when it was computed over this
payload with this key. -/
structure FernetToken where
  keyId : Nat
  payload : PlainData
  tag : Nat × PlainData
deriving DecidableEq, Repr

/-- `Fernet(key).encrypt(data)`. -/
def fernetEncrypt (key : Nat) (data : PlainData) : FernetToken :=
  { keyId := key, payload := data, tag := (key, data) }

/-- `Fernet(key).decrypt(ct)`: raises `InvalidToken` unless the tag
authenticates the payload under the presented key. -/
def fernetDecrypt (key : Nat) (ct : FernetToken) : Except String PlainData :=
  if ct.keyId = key ∧ ct.tag = (key, ct.payload) then .ok ct.payload
  else .error "InvalidToken"

/-- `encrypt_sensitive_data` (src/backend/core/security.py).  The source reads
the single configured key from the environment (`get_encryption_key`); the key
is passed explicitly here. -/
def encrypt_sensitive_data (key : Nat) (data : PlainData) : FernetToken :=
  fernetEncrypt key data

/-- `decrypt_sensitive_data` (src/backend/core/security.py). -/
def decrypt_sensitive_data (key : Nat) (ct : FernetToken) : Except String PlainData :=
  fernetDecrypt key ct

/-- UTF-8 encoding of one character (byte values as `Nat`). -/
def utf8Bytes (c : Char) : List Nat :=
  let n := c.toNat
  if n < 0x80 then [n]
  else if n < 0x800 then [0xC0 + n / 0x40, 0x80 + n % 0x40]
  else if n < 0x10000 then
    [0xE0 + n / 0x1000, 0x80 + (n / 0x40) % 0x40, 0x80 + n % 0x40]
  else
    [0xF0 + n / 0x40000, 0x80 + (n / 0x1000) % 0x40,
     0x80 + (n / 0x40) % 0x40, 0x80 + n % 0x40]

/-- `password.encode('utf-8')` as a list of byte values. -/
def strBytes (s : String) : List Nat :=
  (s.data.map utf8Bytes).flatten

/-- A stored bcrypt hash: either a well-formed hash string carrying its salt
and digest, or a corrupted/malformed stored value.  The digest of an honestly
produced hash is the hashed byte string itself — the idealization of a
collision-free password hash. -/
inductive BcryptHash where
  | wellFormed (salt : Nat) (digest : List Nat)
  | malformed (junk : String)
deriving DecidableEq, Repr

/-- `bcrypt.hashpw(passwordBytes, salt)`. -/
def bcryptHashpw (passwordBytes : List Nat) (salt : Nat) : BcryptHash :=
  .wellFormed salt passwordBytes

/-- `bcrypt.checkpw(passwordBytes, hashed)`: raises (`ValueError: Invalid
salt`) on a malformed stored hash. -/
def bcryptCheckpw (passwordBytes : List Nat) (hashed : BcryptHash) :
    Except String Bool :=
  match hashed with
  | .wellFormed _ digest => .ok (passwordBytes = digest)
  | .malformed _ => .error "ValueError: Invalid salt"

/-- The truncation step shared by `hash_password_direct` and
`verify_password_direct`: `if len(password_bytes) > 72:
password_bytes = password_bytes[:72]`. -/
def truncate72 (passwordBytes : List Nat) : List Nat :=
  if passwordBytes.length > 72 then passwordBytes.take 72 else passwordBytes

/-- `hash_password_direct` (src/backend/models/user.py): UTF-8 encode,
truncate to 72 bytes (bcrypt limit), hash with a fresh salt (passed
explicitly here since `bcrypt.gensalt()` is random). -/
def hash_password_direct (password : String) (salt : Nat) : BcryptHash :=
  bcryptHashpw (truncate72 (strBytes password)) salt

/-- `verify_password_direct` (src/backend/models/user.py): same truncation,
then `bcrypt.checkpw`; any exception (malformed stored hash) is caught and
reported as a non-match. -/
def verify_password_direct (password : String) (hashed : BcryptHash) : Bool :=
  match bcryptCheckpw (truncate72 (strBytes password)) hashed with
  | .ok b => b
  | .error _ => false

/-- `pyotp.TOTP(secret)` code for 30-second window `w`: idealized as a
collision-free function of the secret and the window. -/
def totpCode (secret : String) (w : Nat) : String :=
  "TOTP." ++ secret ++ "." ++ toString w

/-- `pyotp.TOTP(secret).verify(code, valid_window=1)`: the code is accepted
when it matches the current 30-second window or one window on either side. -/
def totpVerify (secret code : String) (now : Nat) : Bool :=
  let w := now / 30
  code == totpCode secret (w - 1) || code == totpCode secret w ||
    code == totpCode secret (w + 1)

/-- A JSON scalar appearing in an audit `details` dict. -/
inductive JVal where
  | jb (b : Bool)
  | js (s : String)
deriving DecidableEq, Repr

/-- A Python `details` dict handed to `log_audit_event`: either a dict of
serializable scalars, or a value `json.dumps` rejects. -/
inductive Detail where
  | dict (entries : List (String × JVal))
  | nonserializable (tag : Nat)
deriving DecidableEq, Repr

def jvalEncode : JVal → String
  | .jb true => "true"
  | .jb false => "false"
  | .js s => "\"" ++ s ++ "\""

def detailEncodeEntries : List (String × JVal) → String
  | [] => ""
  | [(k, v)] => "\"" ++ k ++ "\": " ++ jvalEncode v
  | (k, v) :: rest =>
      "\"" ++ k ++ "\": " ++ jvalEncode v ++ ", " ++ detailEncodeEntries rest

/-- `json.dumps` on a `details` dict: raises `TypeError` on a
non-serializable value. -/
def jsonDumpsDetail : Detail → Except String String
  | .dict es => .ok ("\x7b" ++ detailEncodeEntries es ++ "\x7d")
  | .nonserializable t => .error ("TypeError " ++ toString t)

/-- Python truthiness of a `details` value: `None` and the empty dict are
falsy, everything else truthy. -/
def detailTruthy : Option Detail → Bool
  | none => false
  | some (.dict []) => false
  | some _ => true

/-- `json.dumps(details) if details else None` inside `log_audit_event`. -/
def detailsField (details : Option Detail) : Except String (Option String) :=
  if detailTruthy details then
    match details with
    | some d => (jsonDumpsDetail d).map some
    | none => .ok none
  else .ok none

/-- Python truthiness of an optional integer filter (`if user_id:`):
`None` and `0` are both falsy. -/
def pyTruthyNat : Option Nat → Bool
  | none => false
  | some n => n != 0

/-- Python truthiness of an optional string filter: `None` and `""` are
falsy. -/
def pyTruthyStr : Option String → Bool
  | none => false
  | some s => s != ""

/-- Python truthiness of an optional datetime: a datetime object is always
truthy. -/
def pyTruthyTime : Option Nat → Bool
  | none => false
  | some _ => true

/-- Row of the `users` table (src/backend/models/user.py), restricted to the
columns the modelled code reads or writes. -/
structure UserRec where
  id : Nat
  username : String
  email : String
  hashed_password : BcryptHash
  is_active : Bool
  last_login : Option Nat
deriving DecidableEq, Repr

/-- A decoded JWT as minted by `create_access_token`
(src/backend/core/auth.py): subject, expiry, issue time, random nonce, and
whether the `"2fa_required": True` claim is present (the pending token from
`login` carries it; full tokens do not).  The signed token string is in
bijection with its signed payload, so sessions key on this structure. -/
structure Token where
  sub : String
  exp : Nat
  iat : Nat
  jti : Nat
  twofa_required : Bool
deriving DecidableEq, Repr

/-- Row of the `user_sessions` table (src/backend/models/user_session.py). -/
structure SessionRec where
  id : Nat
  user_id : Nat
  session_token : Token
  ip_address : Option String
  user_agent : Option String
  created_at : Nat
  last_activity : Nat
  expires_at : Nat
  is_active : String
deriving DecidableEq, Repr

/-- Row of the `user_2fa` table (src/backend/models/user_2fa.py). -/
structure TwoFARec where
  id : Nat
  user_id : Nat
  secret_key : FernetToken
  is_enabled : String
  backup_codes : Option FernetToken
  created_at : Nat
  last_used : Option Nat
deriving DecidableEq, Repr

/-- Row of the `audit_logs` table (src/backend/core/audit.py, `AuditLog`). -/
structure AuditRec where
  id : Nat
  user_id : Nat
  username : String
  action : String
  resource_type : String
  resource_id : Option Nat
  ip_address : Option String
  user_agent : Option String
  details : Option String
  success : String
  error_message : Option String
  timestamp : Nat
deriving DecidableEq, Repr

/-- The relational store, as lists in insertion order. -/
structure DB where
  users : List UserRec
  sessions : List SessionRec
  twofa : List TwoFARec
  audit_logs : List AuditRec
deriving DecidableEq, Repr

/-- Replace the first row matching `p` (an ORM mutation of the object
returned by `.first()`). -/
def updateFirst (p : α → Bool) (f : α → α) : List α → List α
  | [] => []
  | a :: rest => if p a then f a :: rest else a :: updateFirst p f rest

/-- The `try:` block of `log_audit_event` (src/backend/core/audit.py):
serialize the detail payload, build the row, `db.add` + `db.commit`.  A
`TypeError` from `json.dumps` or a failed commit surfaces as an error.
The row id models the autoincrement primary key. -/
def log_audit_event_attempt (db : DB) (commitOk : Bool)
    (user_id : Nat) (username action resource_type : String)
    (resource_id : Option Nat) (ip_address user_agent : Option String)
    (details : Option Detail) (success : Bool)
    (error_message : Option String) (now : Nat) : Except String DB := do
  let det ← detailsField details
  let row : AuditRec :=
    { id := db.audit_logs.length
      user_id := user_id
      username := username
      action := action
      resource_type := resource_type
      resource_id := resource_id
      ip_address := ip_address
      user_agent := user_agent
      details := det
      success := if success then "true" else "false"
      error_message := error_message
      timestamp := now }
  if commitOk then
    .ok { db with audit_logs := db.audit_logs ++ [row] }
  else
    .error "OperationalError"

/-- `log_audit_event` (src/backend/core/audit.py): the `try/except` wrapper —
on any failure the error is swallowed and the session rolled back, leaving
the store as it was. -/
def log_audit_event (db : DB) (commitOk : Bool)
    (user_id : Nat) (username action resource_type : String)
    (resource_id : Option Nat) (ip_address user_agent : Option String)
    (details : Option Detail) (success : Bool)
    (error_message : Option String) (now : Nat) : DB :=
  match log_audit_event_attempt db commitOk user_id username action
      resource_type resource_id ip_address user_agent details success
      error_message now with
  | .ok db2 => db2
  | .error _ => db

/-- Insert into a list already sorted by descending timestamp. -/
def insertByTsDesc (a : AuditRec) : List AuditRec → List AuditRec
  | [] => [a]
  | b :: rest =>
      if a.timestamp ≥ b.timestamp then a :: b :: rest
      else b :: insertByTsDesc a rest

/-- `ORDER BY timestamp DESC` (one concrete tie-breaking). -/
def sortByTsDesc (l : List AuditRec) : List AuditRec :=
  l.foldr insertByTsDesc []

/-- `get_audit_logs` (src/backend/core/audit.py): optional filters applied
under Python truthiness (`if user_id:` skips the filter for `None` and `0`),
ordered newest-first, then SQL `LIMIT`/`OFFSET` (offset applied before
limit). -/
def get_audit_logs (db : DB) (user_id : Option Nat)
    (resource_type action : Option String)
    (start_date end_date : Option Nat) (limit offset : Nat) :
    List AuditRec :=
  let q := db.audit_logs
  let q := if pyTruthyNat user_id then
             q.filter (fun r => r.user_id == user_id.getD 0) else q
  let q := if pyTruthyStr resource_type then
             q.filter (fun r => r.resource_type == resource_type.getD "")
           else q
  let q := if pyTruthyStr action then
             q.filter (fun r => r.action == action.getD "") else q
  let q := if pyTruthyTime start_date then
             q.filter (fun r => r.timestamp ≥ start_date.getD 0) else q
  let q := if pyTruthyTime end_date then
             q.filter (fun r => r.timestamp ≤ end_date.getD 0) else q
  ((sortByTsDesc q).drop offset).take limit

/-- `User.verify_password` (src/backend/models/user.py): `pwd_context.verify`
with the single `bcrypt` scheme has the same semantics as the direct path,
and any passlib failure falls back to `verify_password_direct`. -/
def UserRec.verify_password (u : UserRec) (password : String) : Bool :=
  verify_password_direct password u.hashed_password

/-- Outcome of the authentication gate `get_current_user`. -/
inductive AuthResult where
  | ok (user : UserRec)
  | unauthorized
  | forbidden
deriving DecidableEq, Repr

/-- `db.query(User).filter(User.username == name).first()`. -/
def findUserByUsername (db : DB) (name : String) : Option UserRec :=
  db.users.find? (fun u => u.username == name)

/-- The session filter of the gate: exact token and owning user. -/
def sessionPred (token : Token) (uid : Nat) (s : SessionRec) : Bool :=
  s.session_token == token && s.user_id == uid

/-- `db.query(UserSession).filter(session_token == token, user_id == uid).first()`. -/
def find_session (db : DB) (token : Token) (uid : Nat) : Option SessionRec :=
  db.sessions.find? (sessionPred token uid)

/-- `create_access_token` (src/backend/core/auth.py): expiry is issue time
plus `expires_delta` when given, else the configured
`ACCESS_TOKEN_EXPIRE_MINUTES` (`ttl`, default 30); the `jti` nonce is
random and passed explicitly. -/
def create_access_token (sub : String) (twofa_required : Bool)
    (now jti ttl : Nat) (expires_delta : Option Nat) : Token :=
  { sub := sub, exp := now + expires_delta.getD (60 * ttl), iat := now,
    jti := jti, twofa_required := twofa_required }

/-- The gate's expiry side effect: `session.is_active = "false";
db.commit()` on the session row matched by the exact token. -/
def deactivateSession (db : DB) (token : Token) (uid : Nat) : DB :=
  let newSessions := updateFirst (sessionPred token uid)
    (fun x => { x with is_active := "false" }) db.sessions
  { db with sessions := newSessions }

/-- The gate's success side effect: `session.last_activity =
datetime.utcnow(); db.commit()`. -/
def refreshSession (db : DB) (token : Token) (uid now : Nat) : DB :=
  let newSessions := updateFirst (sessionPred token uid)
    (fun x => { x with last_activity := now }) db.sessions
  { db with sessions := newSessions }

/-- `get_current_user` (src/backend/core/auth.py).  `jwt.decode` validates
the `exp` claim (expired iff `exp < now`); the subject is resolved to a user
(failures audited and failed closed); then the session for this exact token
is cross-checked: expired or inactive fails closed (expiry flips the active
flag first), a live session gets its `last_activity` refreshed, and a
missing session is lazily created (back-compat path).  Returns the decision
and the resulting store. -/
def get_current_user (db : DB) (token : Token) (ip ua : Option String)
    (now ttl : Nat) : AuthResult × DB :=
  if token.exp < now then (.unauthorized, db)
  else
    match findUserByUsername db token.sub with
    | none =>
        (.unauthorized,
         log_audit_event db true 0
           (if token.sub == "" then "unknown" else token.sub)
           "login_failed" "authentication" none ip ua none false
           (some "User not found") now)
    | some user =>
        if !user.is_active then
          (.forbidden,
           log_audit_event db true user.id user.username
             "login_failed" "authentication" none ip ua none false
             (some "Account inactive") now)
        else
          match find_session db token user.id with
          | some s =>
              if s.is_active != "true" || decide (now > s.expires_at) then
                let db2 :=
                  if now > s.expires_at then deactivateSession db token user.id
                  else db
                (.unauthorized, db2)
              else
                (.ok user, refreshSession db token user.id now)
          | none =>
              let newSession : SessionRec :=
                { id := db.sessions.length, user_id := user.id,
                  session_token := token, ip_address := ip, user_agent := ua,
                  created_at := now, last_activity := now,
                  expires_at := now + 60 * ttl, is_active := "true" }
              (.ok user, { db with sessions := db.sessions ++ [newSession] })

/-- Outcome of the `login` route. -/
inductive LoginResult where
  | token (access_token : Token) (requires_2fa : Bool)
  | unauthorized
  | forbidden
deriving DecidableEq, Repr

/-- `login` (src/backend/routes/auth.py): password check, inactive check
(both failures audited), 2FA branch returning a 5-minute pending token with
the `2fa_required` claim and creating no session, else last-login update,
token mint, session insert and a success audit event. -/
def login (db : DB) (username password : String) (ip ua : Option String)
    (now jti ttl : Nat) : LoginResult × DB :=
  match findUserByUsername db username with
  | none =>
      (.unauthorized,
       log_audit_event db true 0 username "login_failed" "authentication"
         none ip ua none false (some "Invalid credentials") now)
  | some user =>
      if !(user.verify_password password) then
        (.unauthorized,
         log_audit_event db true user.id username "login_failed"
           "authentication" none ip ua none false
           (some "Invalid credentials") now)
      else if !user.is_active then
        (.forbidden,
         log_audit_event db true user.id user.username "login_failed"
           "authentication" none ip ua none false
           (some "Account inactive") now)
      else
        match db.twofa.find?
            (fun t => t.user_id == user.id && t.is_enabled == "true") with
        | some _ =>
            (.token (create_access_token user.username true now jti ttl
                       (some 300)) true, db)
        | none =>
            let newUsers :=
              updateFirst (fun u => u.username == username)
                (fun u => { u with last_login := some now }) db.users
            let db1 := { db with users := newUsers }
            let access_token :=
              create_access_token user.username false now jti ttl none
            let sess : SessionRec :=
              { id := db1.sessions.length, user_id := user.id,
                session_token := access_token, ip_address := ip,
                user_agent := ua, created_at := now, last_activity := now,
                expires_at := now + 60 * ttl, is_active := "true" }
            let db2 := { db1 with sessions := db1.sessions ++ [sess] }
            let db3 := log_audit_event db2 true user.id user.username
              "login" "authentication" none ip ua none true none now
            (.token access_token false, db3)

/-- `secret = decrypt_sensitive_data(...)` feeding `pyotp.TOTP(secret)`:
the decrypted value must be a plain string. -/
def expectStr : PlainData → Except String String
  | .str s => .ok s
  | _ => .error "TypeError: expected string"

/-- `json.loads` of a decrypted backup-code blob: must be a list. -/
def expectStrList : PlainData → Except String (List String)
  | .strList l => .ok l
  | _ => .error "TypeError: expected list"

/-- `x.encode()` on a nullable column: `None` raises `AttributeError`. -/
def expectSome : Option α → Except String α
  | some a => .ok a
  | none => .error "AttributeError: NoneType"

/-- Python `str.upper()` on the submitted code (`code.upper()`), mapped
character-wise (equivalent to `String.toUpper`, defined by structural
recursion so that concrete runs reduce). -/
def pyUpper (s : String) : String := ⟨s.data.map Char.toUpper⟩

/-- Outcome of the `verify_2fa_login` route. -/
inductive TwoFAVerifyLoginResult where
  | token (t : Token)
  | badRequest
  | invalidCode
deriving DecidableEq, Repr

/-- `verify_2fa_login` (src/backend/routes/auth_2fa_verify.py): with 2FA
enabled, accept a valid TOTP code, else fall back to the backup codes —
a matched backup code is removed from the stored (re-encrypted) list; an
unmatched code is audited and rejected 401.  On success: `last_used` and
`last_login` refresh, final full token mint, session insert, success audit
event with a `backup_code_used` detail. -/
def verify_2fa_login (db : DB) (code : String) (cu : UserRec)
    (ip ua : Option String) (now jti ttl key : Nat) :
    Except String (TwoFAVerifyLoginResult × DB) := do
  match db.twofa.find?
      (fun t => t.user_id == cu.id && t.is_enabled == "true") with
  | none => return (.badRequest, db)
  | some two_fa =>
      let secret ← expectStr (← decrypt_sensitive_data key two_fa.secret_key)
      let step : Option (Bool × Option FernetToken) ←
        if totpVerify secret code now then
          pure (some (false, two_fa.backup_codes))
        else do
          let bcCt ← expectSome two_fa.backup_codes
          let backup_codes ← expectStrList (← decrypt_sensitive_data key bcCt)
          if backup_codes.contains (pyUpper code) then
            pure (some (true, some (encrypt_sensitive_data key
              (.strList (backup_codes.erase (pyUpper code))))))
          else
            pure none
      match step with
      | none =>
          let db1 := log_audit_event db true cu.id cu.username
            "verify_2fa_login" "authentication" none ip ua none false
            (some "Invalid 2FA code") now
          return (.invalidCode, db1)
      | some (backup_code_used, newBC) =>
          let newTwofa :=
            updateFirst (fun t => t.user_id == cu.id && t.is_enabled == "true")
              (fun t => { t with backup_codes := newBC,
                                 last_used := some now }) db.twofa
          let db1 := { db with twofa := newTwofa }
          let newUsers :=
            updateFirst (fun u => u.id == cu.id)
              (fun u => { u with last_login := some now }) db1.users
          let db2 := { db1 with users := newUsers }
          let access_token :=
            create_access_token cu.username false now jti ttl none
          let sess : SessionRec :=
            { id := db2.sessions.length, user_id := cu.id,
              session_token := access_token, ip_address := ip,
              user_agent := ua, created_at := now, last_activity := now,
              expires_at := now + 60 * ttl, is_active := "true" }
          let db3 := { db2 with sessions := db2.sessions ++ [sess] }
          let db4 := log_audit_event db3 true cu.id cu.username
            "verify_2fa_login" "authentication" none ip ua
            (some (.dict [("backup_code_used", .jb backup_code_used)]))
            true none now
          return (.token access_token, db4)

/-- Outcome of the `verify_2fa` (confirmation) route. -/
inductive TwoFAConfirmResult where
  | success (backup_code_used : Bool)
  | notFound
  | alreadyEnabled
  | invalidCode
deriving DecidableEq, Repr

/-- `verify_2fa` (src/backend/routes/two_factor.py): the confirmation step
of the 2FA state machine (`pending → enabled`).  Accepts a valid TOTP code
or — falling back exactly as the login-time verifier does — a stored backup
code, which is removed; any other code is audited and rejected 400 with 2FA
left disabled.  On success `is_enabled` becomes `"true"`. -/
def verify_2fa (db : DB) (code : String) (cu : UserRec)
    (ip ua : Option String) (now key : Nat) :
    Except String (TwoFAConfirmResult × DB) := do
  match db.twofa.find? (fun t => t.user_id == cu.id) with
  | none => return (.notFound, db)
  | some two_fa =>
      if two_fa.is_enabled == "true" then
        return (.alreadyEnabled, db)
      else
        let secret ← expectStr (← decrypt_sensitive_data key two_fa.secret_key)
        let step : Option (Bool × Option FernetToken) ←
          if totpVerify secret code now then
            pure (some (false, two_fa.backup_codes))
          else do
            let bcCt ← expectSome two_fa.backup_codes
            let backup_codes ← expectStrList (← decrypt_sensitive_data key bcCt)
            if backup_codes.contains (pyUpper code) then
              pure (some (true, some (encrypt_sensitive_data key
                (.strList (backup_codes.erase (pyUpper code))))))
            else
              pure none
        match step with
        | none =>
            let db1 := log_audit_event db true cu.id cu.username
              "verify_2fa" "user_2fa" (some two_fa.id) ip ua none false
              (some "Invalid 2FA code") now
            return (.invalidCode, db1)
        | some (backup_code_used, newBC) =>
            let newTwofa :=
              updateFirst (fun t => t.user_id == cu.id)
                (fun t => { t with backup_codes := newBC,
                                   is_enabled := "true",
                                   last_used := some now }) db.twofa
            let db1 := { db with twofa := newTwofa }
            let db2 := log_audit_event db1 true cu.id cu.username
              "enable_2fa" "user_2fa" (some two_fa.id) ip ua none true
              none now
            return (.success backup_code_used, db2)

/-- Outcome of the `disable_2fa` route. -/
inductive TwoFADisableResult where
  | success
  | notEnabled
  | invalidCode
deriving DecidableEq, Repr

/-- `disable_2fa` (src/backend/routes/two_factor.py): requires a valid TOTP
code or a stored backup code; note the backup-code check is a pure
membership test — the matched code is NOT removed from the stored list.
On success `is_enabled` becomes `"false"` (secret and backup codes are left
in place). -/
def disable_2fa (db : DB) (code : String) (cu : UserRec)
    (ip ua : Option String) (now key : Nat) :
    Except String (TwoFADisableResult × DB) := do
  match db.twofa.find? (fun t => t.user_id == cu.id) with
  | none => return (.notEnabled, db)
  | some two_fa =>
      if two_fa.is_enabled != "true" then
        return (.notEnabled, db)
      else
        let secret ← expectStr (← decrypt_sensitive_data key two_fa.secret_key)
        let code_valid ←
          if totpVerify secret code now then
            pure true
          else do
            let bcCt ← expectSome two_fa.backup_codes
            let backup_codes ← expectStrList (← decrypt_sensitive_data key bcCt)
            pure (backup_codes.contains (pyUpper code))
        if !code_valid then
          return (.invalidCode, db)
        else
          let newTwofa :=
            updateFirst (fun t => t.user_id == cu.id)
              (fun t => { t with is_enabled := "false" }) db.twofa
          let db1 := { db with twofa := newTwofa }
          let db2 := log_audit_event db1 true cu.id cu.username
            "disable_2fa" "user_2fa" (some two_fa.id) ip ua none true
            none now
          return (.success, db2)

/-! ### Concrete fixtures used by counterexamples and witnesses -/

/-- A user with 2FA enabled and one backup code, for the backup-code
consumption scenario. -/
def c1user : UserRec := ⟨4, "dave", "d@x", .malformed "unused", true, none⟩

def c1tfa : TwoFARec :=
  ⟨1, 4, encrypt_sensitive_data 9 (.str "SECRET"), "true",
   some (encrypt_sensitive_data 9 (.strList ["AAAA2222"])), 0, none⟩

def c1db : DB := ⟨[c1user], [], [c1tfa], []⟩

/-- The store after `disable_2fa` with backup code `"aaaa2222"` at time 1000:
2FA disabled, the used backup code still stored, one audit row. -/
def c1db2 : DB :=
  ⟨[c1user], [], [{ c1tfa with is_enabled := "false" }],
   [⟨0, 4, "dave", "disable_2fa", "user_2fa", some 1, none, none, none,
     "true", none, 1000⟩]⟩

/-- A user with a pending (unconfirmed) 2FA record, for the confirmation
backup-code scenario. -/
def c2user : UserRec := ⟨5, "eve", "e@x", .malformed "unused", true, none⟩

def c2tfa : TwoFARec :=
  ⟨1, 5, encrypt_sensitive_data 9 (.str "SECRETE"), "false",
   some (encrypt_sensitive_data 9 (.strList ["BBBB3333"])), 0, none⟩

def c2db : DB := ⟨[c2user], [], [c2tfa], []⟩

/-- The descending-timestamp ordering produced by
`ORDER BY timestamp DESC` (newest first). -/
def tsGe (a b : AuditRec) : Prop := b.timestamp ≤ a.timestamp

/-- An audit row the code itself writes with actor id 0 (`auth.py` logs
unknown users as `user_id=0`). -/
def c8row0 : AuditRec :=
  ⟨0, 0, "unknown", "login_failed", "authentication", none, none, none,
   none, "false", some "User not found", 10⟩

def c8row7 : AuditRec :=
  ⟨1, 7, "grace", "view", "patient", some 3, none, none, none, "true",
   none, 5⟩

def c8db : DB := ⟨[], [], [], [c8row0, c8row7]⟩

/-- An active user for gate witnesses. -/
def wuser : UserRec :=
  ⟨1, "alice", "alice@x", hash_password_direct "Password1!" 0, true, none⟩

def tok3 : Token := ⟨"alice", 10000, 0, 1, false⟩

/-- A session for `tok3` that expired at time 500. -/
def sess3 : SessionRec := ⟨0, 1, tok3, none, none, 0, 0, 500, "true"⟩

def db3 : DB := ⟨[wuser], [sess3], [], []⟩

def tok5 : Token := ⟨"alice", 10000, 0, 2, false⟩

/-- A live session for `tok5` (expires at 10000). -/
def sess5 : SessionRec := ⟨0, 1, tok5, none, none, 0, 0, 10000, "true"⟩

def db5 : DB := ⟨[wuser], [sess5], [], []⟩

/-- A 2FA-enabled user with no session rows, for the pending-token
scenario. -/
def c4user : UserRec := ⟨2, "bob", "b@x", .malformed "unused", true, none⟩

def c4tfa : TwoFARec :=
  ⟨1, 2, encrypt_sensitive_data 9 (.str "S2"), "true", none, 0, none⟩

def c4db : DB := ⟨[c4user], [], [c4tfa], []⟩

def tok4 : Token := ⟨"bob", 400, 100, 7, false⟩

/-- An active user without 2FA, for the login witness. -/
def c6user : UserRec :=
  ⟨3, "carol", "c@x", hash_password_direct "Password1!" 5, true, none⟩

def c6db : DB := ⟨[c6user], [], [], []⟩

/-! ### Helper lemmas -/

theorem decrypt_encrypt (key : Nat) (d : PlainData) :
    decrypt_sensitive_data key (encrypt_sensitive_data key d) = .ok d := by
  simp [decrypt_sensitive_data, encrypt_sensitive_data, fernetDecrypt,
    fernetEncrypt]

theorem find?_updateFirst {α} (p : α → Bool) (f : α → α) (l : List α)
    (hf : ∀ a, p (f a) = p a) :
    (updateFirst p f l).find? p = (l.find? p).map f := by
  induction l with
  | nil => rfl
  | cons a r ih =>
    by_cases h : p a
    · simp [updateFirst, h, List.find?_cons_of_pos, hf]
    · rw [Bool.not_eq_true] at h
      simp [updateFirst, h, List.find?_cons_of_neg, ih]

theorem updateFirst_sessions_users (db : DB) (p : SessionRec → Bool)
    (f : SessionRec → SessionRec) :
    ({ db with sessions := updateFirst p f db.sessions } : DB).users =
      db.users := rfl

/-! ### Claim theorems -/

/-- C10: encrypting a plaintext and decrypting the result under the same
configured key returns the original plaintext exactly, and decrypting any
ciphertext that is not an honest encryption under that key (tampered or
corrupted) raises `InvalidToken` rather than returning data. -/
theorem C10_encrypt_decrypt_roundtrip_and_tamper :
    (∀ (key : Nat) (data : PlainData),
      decrypt_sensitive_data key (encrypt_sensitive_data key data) =
        .ok data) ∧
    (∀ (key : Nat) (ct : FernetToken),
      (∀ data : PlainData, ct ≠ encrypt_sensitive_data key data) →
      decrypt_sensitive_data key ct = .error "InvalidToken") := by
  constructor
  · exact decrypt_encrypt
  · intro key ct h
    by_cases hc : ct.keyId = key ∧ ct.tag = (key, ct.payload)
    · exfalso
      apply h ct.payload
      obtain ⟨h1, h2⟩ := hc
      cases ct with
      | mk k p t => simp_all [encrypt_sensitive_data, fernetEncrypt]
    · simp [decrypt_sensitive_data, fernetDecrypt, hc]

/-- Witness for C10 at a concrete plaintext and a concrete tampered
ciphertext (its tag was not computed over its payload under key 5). -/
theorem C10_witness :
    decrypt_sensitive_data 5 (encrypt_sensitive_data 5 (.str "redcap-token"))
        = .ok (.str "redcap-token") ∧
    decrypt_sensitive_data 5 ⟨5, .str "x", (6, .str "x")⟩ =
        .error "InvalidToken" := by
  constructor
  · exact C10_encrypt_decrypt_roundtrip_and_tamper.1 5 (.str "redcap-token")
  · apply C10_encrypt_decrypt_roundtrip_and_tamper.2 5
    intro data hd
    have htag : (6, PlainData.str "x") = (5, data) :=
      congrArg FernetToken.tag hd
    simp [encrypt_sensitive_data, fernetEncrypt] at htag

/-- C9 counterexample: two distinct passwords that agree on their first 72
UTF-8 bytes verify against the same stored hash — bcrypt's documented
72-byte truncation, which the spec itself records as an accepted lossy
boundary. -/
theorem C9_counterexample :
    String.mk (List.replicate 73 'a') ≠
        String.mk (List.replicate 72 'a' ++ ['b']) ∧
    verify_password_direct (String.mk (List.replicate 72 'a' ++ ['b']))
        (hash_password_direct (String.mk (List.replicate 73 'a')) 0) =
      true := by
  constructor
  · decide
  · rfl

/-- C9 (amended): hashing then verifying the same password returns true;
verifying a password whose UTF-8 encoding truncated to 72 bytes differs
from that of the hashed password returns false; and verifying any password
against a malformed stored hash returns false without raising. -/
theorem C9_hash_verify (p q : String) (salt : Nat) (junk : String)
    (hq : truncate72 (strBytes q) ≠ truncate72 (strBytes p)) :
    verify_password_direct p (hash_password_direct p salt) = true ∧
    verify_password_direct q (hash_password_direct p salt) = false ∧
    verify_password_direct q (.malformed junk) = false := by
  refine ⟨?_, ?_, rfl⟩
  · simp [verify_password_direct, hash_password_direct, bcryptHashpw,
      bcryptCheckpw]
  · simp [verify_password_direct, hash_password_direct, bcryptHashpw,
      bcryptCheckpw, hq]

/-- Witness for C9 at concrete passwords. -/
theorem C9_witness :
    verify_password_direct "CorrectHorse1!"
        (hash_password_direct "CorrectHorse1!" 3) = true ∧
    verify_password_direct "wrong-password"
        (hash_password_direct "CorrectHorse1!" 3) = false ∧
    verify_password_direct "wrong-password"
        (.malformed "not-a-bcrypt-hash") = false :=
  C9_hash_verify "CorrectHorse1!" "wrong-password" 3 "not-a-bcrypt-hash"
    (by decide)

/-- C7: the audit recorder never raises past its own boundary: when the
detail payload fails to serialize or the persistence write fails, the
failure is swallowed and the store is left exactly as it was (the caller's
outcome is unaffected); in every case the result is either the unchanged
store or the store with the single new row appended. -/
theorem C7_log_audit_event_never_raises (db : DB) (commitOk : Bool)
    (uid : Nat) (uname act rt : String) (rid : Option Nat)
    (ip ua : Option String) (details : Option Detail) (succ : Bool)
    (err : Option String) (now : Nat) :
    ((∃ e, detailsField details = .error e) ∨ commitOk = false →
      log_audit_event db commitOk uid uname act rt rid ip ua details succ
        err now = db) ∧
    (log_audit_event db commitOk uid uname act rt rid ip ua details succ
        err now = db ∨
      ∃ row : AuditRec,
        log_audit_event db commitOk uid uname act rt rid ip ua details succ
          err now = { db with audit_logs := db.audit_logs ++ [row] }) := by
  unfold log_audit_event log_audit_event_attempt
  cases hdf : detailsField details with
  | error e =>
      simp only [hdf, Except.bind]
      exact ⟨fun _ => rfl, Or.inl rfl⟩
  | ok det =>
      cases commitOk with
      | false =>
          simp only [hdf, Except.bind]
          exact ⟨fun _ => rfl, Or.inl rfl⟩
      | true =>
          simp only [hdf, Except.bind]
          constructor
          · rintro (⟨e, he⟩ | hc)
            · simp at he
            · cases hc
          · exact Or.inr ⟨_, rfl⟩

/-- Witness for C7: a non-serializable detail payload is swallowed and the
store is unchanged. -/
theorem C7_witness :
    log_audit_event ⟨[], [], [], []⟩ true 1 "alice" "view" "patient" none
      none none (some (.nonserializable 0)) true none 50 =
      ⟨[], [], [], []⟩ :=
  (C7_log_audit_event_never_raises ⟨[], [], [], []⟩ true 1 "alice" "view"
    "patient" none none none (some (.nonserializable 0)) true none 50).1
    (Or.inl ⟨"TypeError 0", rfl⟩)

theorem mem_insertByTsDesc (a : AuditRec) (l : List AuditRec) (x : AuditRec) :
    x ∈ insertByTsDesc a l ↔ x = a ∨ x ∈ l := by
  induction l with
  | nil => simp [insertByTsDesc]
  | cons b r ih =>
    by_cases h : a.timestamp ≥ b.timestamp
    · simp [insertByTsDesc, h, List.mem_cons]
    · simp [insertByTsDesc, h, List.mem_cons, ih]
      tauto

theorem pairwise_insertByTsDesc (a : AuditRec) (l : List AuditRec)
    (h : l.Pairwise tsGe) : (insertByTsDesc a l).Pairwise tsGe := by
  induction l with
  | nil => simp [insertByTsDesc, tsGe]
  | cons b r ih =>
    obtain ⟨hb, hr⟩ := List.pairwise_cons.mp h
    by_cases hab : a.timestamp ≥ b.timestamp
    · rw [insertByTsDesc, if_pos hab]
      refine List.pairwise_cons.mpr ⟨?_, h⟩
      intro x hx
      rcases List.mem_cons.mp hx with rfl | hx2
      · exact hab
      · exact le_trans (hb x hx2) hab
    · rw [insertByTsDesc, if_neg hab]
      refine List.pairwise_cons.mpr ⟨?_, ih hr⟩
      intro x hx
      rcases (mem_insertByTsDesc a r x).mp hx with rfl | hx2
      · exact Nat.le_of_not_le hab
      · exact hb x hx2

theorem mem_sortByTsDesc (l : List AuditRec) (x : AuditRec) :
    x ∈ sortByTsDesc l ↔ x ∈ l := by
  induction l with
  | nil => simp [sortByTsDesc]
  | cons a r ih =>
    show x ∈ insertByTsDesc a (sortByTsDesc r) ↔ _
    rw [mem_insertByTsDesc]
    simp only [List.mem_cons, ih]

theorem pairwise_sortByTsDesc (l : List AuditRec) :
    (sortByTsDesc l).Pairwise tsGe := by
  induction l with
  | nil => simp [sortByTsDesc]
  | cons a r ih => exact pairwise_insertByTsDesc a (sortByTsDesc r) ih

/-- C8 counterexample: filtering by actor id 0 — an actor id the code
itself writes (`auth.py` records unknown users with `user_id=0`) — returns
events of other actors, because `if user_id:` treats 0 as "no filter"
(Python falsiness). -/
theorem C8_counterexample :
    ¬ ∀ r ∈ get_audit_logs c8db (some 0) none none none none 100 0,
        r.user_id = 0 := by decide

/-- C8 (amended): for every NONZERO actor id, retrieval filtered by that
actor id returns only events of that actor (all drawn from the log),
ordered by timestamp descending, with at most `limit` rows after the
offset is applied; an actor id of 0 is treated as "no filter". -/
theorem C8_get_audit_logs_filtered (db : DB) (uid limit offset : Nat)
    (huid : uid ≠ 0) :
    (∀ r ∈ get_audit_logs db (some uid) none none none none limit offset,
        r.user_id = uid ∧ r ∈ db.audit_logs) ∧
    (get_audit_logs db (some uid) none none none none limit
        offset).Pairwise tsGe ∧
    (get_audit_logs db (some uid) none none none none limit
        offset).length ≤ limit := by
  have hq : get_audit_logs db (some uid) none none none none limit offset =
      ((sortByTsDesc (db.audit_logs.filter
        (fun r => r.user_id == uid))).drop offset).take limit := by
    simp [get_audit_logs, pyTruthyNat, pyTruthyStr, pyTruthyTime, huid]
  rw [hq]
  refine ⟨?_, ?_, ?_⟩
  · intro r hr
    have h1 : r ∈ sortByTsDesc (db.audit_logs.filter
        (fun x => x.user_id == uid)) :=
      List.mem_of_mem_drop (List.mem_of_mem_take hr)
    have h2 := (mem_sortByTsDesc _ r).mp h1
    obtain ⟨hmem, hpred⟩ := List.mem_filter.mp h2
    exact ⟨eq_of_beq hpred, hmem⟩
  · exact List.Pairwise.sublist
      ((List.take_sublist _ _).trans (List.drop_sublist _ _))
      (pairwise_sortByTsDesc _)
  · exact List.length_take_le _ _

/-- Witness for C8 at a concrete log and the nonzero actor id 7. -/
theorem C8_witness :
    (∀ r ∈ get_audit_logs c8db (some 7) none none none none 100 0,
        r.user_id = 7 ∧ r ∈ c8db.audit_logs) ∧
    (get_audit_logs c8db (some 7) none none none none 100 0).Pairwise tsGe ∧
    (get_audit_logs c8db (some 7) none none none none 100 0).length ≤ 100 :=
  C8_get_audit_logs_filtered c8db 7 100 0 (by decide)

/-- C3: when the bearer token passes JWT validation and resolves to an
active user but the matching session's `expires_at` is strictly in the
past, the gate fails with Unauthenticated and flips the session's active
flag to `"false"` as a side effect; a repeated check at any later instant
(through token expiry or the now-inactive flag) again fails closed and the
flag stays `"false"` — it is never set back to active. -/
theorem C3_expired_session_fails_and_deactivates (db : DB) (token : Token)
    (ip ua ip2 ua2 : Option String) (now ttl now2 ttl2 : Nat)
    (u : UserRec) (s : SessionRec)
    (htok : ¬ token.exp < now)
    (hu : findUserByUsername db token.sub = some u)
    (hactive : u.is_active = true)
    (hs : find_session db token u.id = some s)
    (hexp : s.expires_at < now) :
    (get_current_user db token ip ua now ttl).1 = .unauthorized ∧
    find_session (get_current_user db token ip ua now ttl).2 token u.id =
      some { s with is_active := "false" } ∧
    (get_current_user (get_current_user db token ip ua now ttl).2 token ip2
        ua2 now2 ttl2).1 = .unauthorized ∧
    find_session (get_current_user (get_current_user db token ip ua now
        ttl).2 token ip2 ua2 now2 ttl2).2 token u.id =
      some { s with is_active := "false" } := by
  have hf : ∀ a : SessionRec,
      sessionPred token u.id { a with is_active := "false" } =
        sessionPred token u.id a := fun a => rfl
  have hrun1 : get_current_user db token ip ua now ttl =
      (.unauthorized, deactivateSession db token u.id) := by
    unfold get_current_user
    rw [if_neg htok, hu]
    simp only [hactive, Bool.not_true, Bool.false_eq_true, if_false]
    simp only [hs]
    have hcondn : (s.is_active != "true" || decide (now > s.expires_at))
        = true := by
      rw [decide_eq_true hexp, Bool.or_true]
    rw [if_pos hcondn, if_pos hexp]
  have hfind1 : find_session (deactivateSession db token u.id) token u.id =
      some { s with is_active := "false" } := by
    show (updateFirst (sessionPred token u.id)
      (fun x => { x with is_active := "false" }) db.sessions).find?
        (sessionPred token u.id) = _
    rw [find?_updateFirst _ _ _ hf]
    have hs2 : db.sessions.find? (sessionPred token u.id) = some s := hs
    rw [hs2]
    rfl
  have h2 : (get_current_user (deactivateSession db token u.id) token ip2 ua2
        now2 ttl2).1 = .unauthorized ∧
      find_session (get_current_user (deactivateSession db token u.id) token
        ip2 ua2 now2 ttl2).2 token u.id =
        some { s with is_active := "false" } := by
    by_cases he2 : token.exp < now2
    · unfold get_current_user
      rw [if_pos he2]
      exact ⟨rfl, hfind1⟩
    · unfold get_current_user
      rw [if_neg he2]
      rw [show findUserByUsername (deactivateSession db token u.id) token.sub
            = some u from hu]
      simp only [hactive, Bool.not_true, Bool.false_eq_true, if_false]
      simp only [hfind1]
      have hcond2 : ((({ s with is_active := "false" } : SessionRec).is_active
          != "true") || decide (now2 >
            ({ s with is_active := "false" } : SessionRec).expires_at))
          = true := by
        rw [show (({ s with is_active := "false" } : SessionRec).is_active
          != "true") = true from rfl, Bool.true_or]
      rw [if_pos hcond2]
      by_cases hn2 : now2 > s.expires_at
      · rw [if_pos hn2]
        refine ⟨rfl, ?_⟩
        show (updateFirst (sessionPred token u.id)
          (fun x => { x with is_active := "false" })
          (deactivateSession db token u.id).sessions).find?
            (sessionPred token u.id) = _
        rw [find?_updateFirst _ _ _ hf]
        have hprev : (deactivateSession db token u.id).sessions.find?
            (sessionPred token u.id) =
            some { s with is_active := "false" } := hfind1
        rw [hprev]
        rfl
      · rw [if_neg hn2]
        exact ⟨rfl, hfind1⟩
  rw [hrun1]
  exact ⟨rfl, hfind1, h2.1, h2.2⟩

/-- Witness for C3: alice's session expired at 500; the gate check at 600
rejects and deactivates it, and a repeated check at 700 rejects again with
the flag still `"false"`. -/
theorem C3_witness :
    (get_current_user db3 tok3 none none 600 30).1 = .unauthorized ∧
    find_session (get_current_user db3 tok3 none none 600 30).2 tok3
      wuser.id = some { sess3 with is_active := "false" } ∧
    (get_current_user (get_current_user db3 tok3 none none 600 30).2 tok3
      none none 700 30).1 = .unauthorized ∧
    find_session (get_current_user (get_current_user db3 tok3 none none 600
      30).2 tok3 none none 700 30).2 tok3 wuser.id =
      some { sess3 with is_active := "false" } :=
  C3_expired_session_fails_and_deactivates db3 tok3 none none none none 600
    30 700 30 wuser sess3 (by decide) (by decide) rfl (by decide) (by decide)

/-- C5: a successful pass through the gate with an existing active,
unexpired session changes nothing in the store except that session's
`last_activity`, which is refreshed to the current time — users, 2FA
records, the audit log, all other sessions, and every other field of this
session (in particular `expires_at`) are untouched, and the resolved user
is returned. -/
theorem C5_active_session_frame (db : DB) (token : Token)
    (ip ua : Option String) (now ttl : Nat) (u : UserRec) (s : SessionRec)
    (htok : ¬ token.exp < now)
    (hu : findUserByUsername db token.sub = some u)
    (hactive : u.is_active = true)
    (hs : find_session db token u.id = some s)
    (hact : s.is_active = "true")
    (hnexp : ¬ now > s.expires_at) :
    get_current_user db token ip ua now ttl =
      (.ok u, refreshSession db token u.id now) ∧
    find_session (get_current_user db token ip ua now ttl).2 token u.id =
      some { s with last_activity := now } := by
  have hcond : (s.is_active != "true" || decide (now > s.expires_at))
      = false := by
    rw [hact, decide_eq_false hnexp]
    rfl
  have hrun : get_current_user db token ip ua now ttl =
      (.ok u, refreshSession db token u.id now) := by
    unfold get_current_user
    rw [if_neg htok, hu]
    simp only [hactive, Bool.not_true, Bool.false_eq_true, if_false]
    simp only [hs, hcond, Bool.false_eq_true, if_false]
  refine ⟨hrun, ?_⟩
  rw [hrun]
  have hf : ∀ a : SessionRec,
      sessionPred token u.id { a with last_activity := now } =
        sessionPred token u.id a := fun a => rfl
  show (updateFirst (sessionPred token u.id)
    (fun x => { x with last_activity := now }) db.sessions).find?
      (sessionPred token u.id) = _
  rw [find?_updateFirst _ _ _ hf]
  have hs2 : db.sessions.find? (sessionPred token u.id) = some s := hs
  rw [hs2]
  rfl

/-- Witness for C5: alice's live session at time 600 — the gate succeeds
and only `last_activity` moves to 600. -/
theorem C5_witness :
    get_current_user db5 tok5 none none 600 30 =
      (.ok wuser, refreshSession db5 tok5 wuser.id 600) ∧
    find_session (get_current_user db5 tok5 none none 600 30).2 tok5
      wuser.id = some { sess5 with last_activity := 600 } :=
  C5_active_session_frame db5 tok5 none none 600 30 wuser sess5 (by decide)
    (by decide) rfl (by decide) rfl (by decide)

/-- C4: the gate's accept/reject decision never examines the
`2fa_required` claim — two tokens identical except for that claim (and
with the same session-lookup result, the only place the token string
itself is consulted) get the same decision; consequently the 5-minute
pending token minted by `login` for a 2FA-enabled user, which has no
session row, is accepted as a full credential by the gate (the lazy
session-creation branch fires). -/
theorem C4_gate_never_reads_twofa_claim :
    (∀ (db : DB) (t : Token) (b : Bool) (ip ua : Option String)
        (now ttl : Nat),
      (∀ uid, find_session db t uid =
        find_session db { t with twofa_required := b } uid) →
      (get_current_user db t ip ua now ttl).1 =
        (get_current_user db { t with twofa_required := b } ip ua now
          ttl).1) ∧
    (∀ (db : DB) (user : UserRec) (tf : TwoFARec) (now0 jti now ttl : Nat)
        (ip ua : Option String),
      findUserByUsername db user.username = some user →
      user.is_active = true →
      db.twofa.find?
        (fun x => x.user_id == user.id && x.is_enabled == "true") =
          some tf →
      ¬ ((create_access_token user.username true now0 jti ttl
            (some 300)).exp < now) →
      find_session db (create_access_token user.username true now0 jti ttl
        (some 300)) user.id = none →
      (get_current_user db (create_access_token user.username true now0 jti
        ttl (some 300)) ip ua now ttl).1 = .ok user) := by
  constructor
  · intro db t b ip ua now ttl hsess
    have hexp2 : ({ t with twofa_required := b } : Token).exp = t.exp := rfl
    have hsub2 : ({ t with twofa_required := b } : Token).sub = t.sub := rfl
    unfold get_current_user
    rw [hexp2, hsub2]
    by_cases he : t.exp < now
    · rw [if_pos he, if_pos he]
    · rw [if_neg he, if_neg he]
      cases hfu : findUserByUsername db t.sub with
      | none => simp only [hfu]
      | some u =>
        simp only [hfu]
        by_cases hua : u.is_active
        · simp only [hua, Bool.not_true, Bool.false_eq_true, if_false]
          rw [← hsess u.id]
          cases hfs : find_session db t u.id with
          | none => simp only [hfs]
          | some s =>
            simp only [hfs]
            by_cases hc :
                (s.is_active != "true" || decide (now > s.expires_at)) = true
            · rw [if_pos hc, if_pos hc]
            · rw [if_neg hc, if_neg hc]
        · rw [Bool.not_eq_true] at hua
          simp only [hua, Bool.not_false, if_true]
  · intro db user tf now0 jti now ttl ip ua hu hactive h2fa htok hsess
    unfold get_current_user
    rw [if_neg htok]
    simp only [show (create_access_token user.username true now0 jti ttl
      (some 300)).sub = user.username from rfl, hu, hactive, Bool.not_true,
      Bool.false_eq_true, if_false, hsess]

/-- Witness for C4: flipping the `2fa_required` claim on a token with no
session row does not change the decision, and bob's concrete pending token
(minted at 100, presented at 200) is accepted as a full credential even
though bob's 2FA is enabled. -/
theorem C4_witness :
    (get_current_user c4db tok4 none none 200 30).1 =
      (get_current_user c4db { tok4 with twofa_required := true } none none
        200 30).1 ∧
    (get_current_user c4db (create_access_token c4user.username true 100 7
      30 (some 300)) none none 200 30).1 = .ok c4user :=
  ⟨C4_gate_never_reads_twofa_claim.1 c4db tok4 true none none 200 30
      (fun _ => rfl),
   C4_gate_never_reads_twofa_claim.2 c4db c4user c4tfa 100 7 200 30 none
      none (by decide) rfl (by decide) (by decide) rfl⟩

/-- C6: for a (username, password) pair matching an active account without
2FA, `login` returns a full token, updates the user's last login, inserts
a session whose `expires_at` is the issuance time plus the configured TTL
(`ACCESS_TOKEN_EXPIRE_MINUTES`, default 30 minutes), and appends an audit
event with action `"login"` and success `"true"`. -/
theorem C6_login_session_and_audit (db : DB) (username password : String)
    (ip ua : Option String) (now jti ttl : Nat) (u : UserRec)
    (hu : findUserByUsername db username = some u)
    (hpw : u.verify_password password = true)
    (hactive : u.is_active = true)
    (h2fa : db.twofa.find?
      (fun t => t.user_id == u.id && t.is_enabled == "true") = none) :
    login db username password ip ua now jti ttl =
      (.token (create_access_token u.username false now jti ttl none) false,
       ⟨updateFirst (fun x => x.username == username)
          (fun x => { x with last_login := some now }) db.users,
        db.sessions ++ [⟨db.sessions.length, u.id,
          create_access_token u.username false now jti ttl none, ip, ua,
          now, now, now + 60 * ttl, "true"⟩],
        db.twofa,
        db.audit_logs ++ [⟨db.audit_logs.length, u.id, u.username, "login",
          "authentication", none, ip, ua, none, "true", none, now⟩]⟩) := by
  unfold login
  simp only [hu, hpw, Bool.not_true, Bool.false_eq_true, if_false, hactive,
    h2fa]
  rfl

/-- Witness for C6: carol logs in at time 50 with TTL 30 minutes; the
session expires at 50 + 1800 and a `"login"`/`"true"` audit row is
appended. -/
theorem C6_witness :
    login c6db "carol" "Password1!" none none 50 11 30 =
      (.token (create_access_token c6user.username false 50 11 30 none)
        false,
       ⟨updateFirst (fun x => x.username == "carol")
          (fun x => { x with last_login := some 50 }) c6db.users,
        c6db.sessions ++ [⟨c6db.sessions.length, c6user.id,
          create_access_token c6user.username false 50 11 30 none, none,
          none, 50, 50, 50 + 60 * 30, "true"⟩],
        c6db.twofa,
        c6db.audit_logs ++ [⟨c6db.audit_logs.length, c6user.id,
          c6user.username, "login", "authentication", none, none, none,
          none, "true", none, 50⟩]⟩) :=
  C6_login_session_and_audit c6db "carol" "Password1!" none none 50 11 30
    c6user (by decide) (by decide) rfl rfl

/-- C1 at its failing input: `disable_2fa` accepts the backup code
`"aaaa2222"` but — unlike the login-time verifier and the confirmation
verifier — does not remove it from the stored list (`c1db2` still carries
it encrypted); the same code then succeeds a second time at the
confirmation endpoint, which re-enables 2FA.  Neither code was ever a
valid TOTP code. -/
theorem C1_backup_code_survives_disable :
    (disable_2fa c1db "aaaa2222" c1user none none 1000 9).toOption =
      some (.success, c1db2) ∧
    ((verify_2fa c1db2 "aaaa2222" c1user none none 2000 9).map
      Prod.fst).toOption = some (.success true) ∧
    totpVerify "SECRET" "aaaa2222" 1000 = false ∧
    totpVerify "SECRET" "aaaa2222" 2000 = false := by
  decide

/-- C2 counterexample: a code that is not a valid TOTP code (it is one of
the stored backup codes) makes confirmation succeed and enables 2FA —
there IS a backup-code path during confirmation. -/
theorem C2_counterexample :
    totpVerify "SECRETE" "bbbb3333" 500 = false ∧
    ((verify_2fa c2db "bbbb3333" c2user none none 500 9).map
      (fun r => (r.1, r.2.twofa.map (fun t => t.is_enabled)))).toOption =
      some (.success true, ["true"]) := by
  decide

/-- C2 (amended): during confirmation the verifier accepts a valid
time-step TOTP code within the clock-skew window (backup codes left
untouched) or one of the stored backup codes (which is then removed,
exactly as in login-time verification); for every submitted code that is
neither, confirmation fails with an audited rejection and 2FA is not
enabled. -/
theorem C2_confirm_accepts_totp_or_backup (db : DB) (code : String)
    (cu : UserRec) (ip ua : Option String) (now key : Nat)
    (tf : TwoFARec) (secret : String) (codes : List String)
    (htf : db.twofa.find? (fun t => t.user_id == cu.id) = some tf)
    (hpend : (tf.is_enabled == "true") = false)
    (hsec : tf.secret_key = encrypt_sensitive_data key (.str secret))
    (hbc : tf.backup_codes =
      some (encrypt_sensitive_data key (.strList codes))) :
    (totpVerify secret code now = true →
      ∃ db2, verify_2fa db code cu ip ua now key =
          .ok (.success false, db2) ∧
        db2.twofa.find? (fun t => t.user_id == cu.id) =
          some { tf with backup_codes := some (encrypt_sensitive_data key (.strList codes)), is_enabled := "true", last_used := some now }) ∧
    (totpVerify secret code now = false →
      codes.contains (pyUpper code) = false →
      verify_2fa db code cu ip ua now key =
        .ok (.invalidCode, log_audit_event db true cu.id cu.username
          "verify_2fa" "user_2fa" (some tf.id) ip ua none false
          (some "Invalid 2FA code") now)) ∧
    (totpVerify secret code now = false →
      codes.contains (pyUpper code) = true →
      ∃ db2, verify_2fa db code cu ip ua now key =
          .ok (.success true, db2) ∧
        db2.twofa.find? (fun t => t.user_id == cu.id) =
          some { tf with backup_codes := some (encrypt_sensitive_data key (.strList (codes.erase (pyUpper code)))), is_enabled := "true", last_used := some now }) := by
  unfold verify_2fa
  simp only [htf, hpend, Bool.false_eq_true, if_false, hsec,
    decrypt_encrypt, hbc, expectStr, expectSome, expectStrList,
    bind, Except.bind, pure, Except.pure]
  refine ⟨?_, ?_, ?_⟩
  · intro htotpT
    simp only [htotpT, if_true, bind, Except.bind, pure, Except.pure]
    refine ⟨_, rfl, ?_⟩
    have hf : ∀ a : TwoFARec,
        (fun t : TwoFARec => t.user_id == cu.id) { a with backup_codes := some (encrypt_sensitive_data key (.strList codes)), is_enabled := "true", last_used := some now } =
        (fun t : TwoFARec => t.user_id == cu.id) a := fun a => rfl
    show (updateFirst (fun t : TwoFARec => t.user_id == cu.id)
        _ db.twofa).find? (fun t => t.user_id == cu.id) = _
    rw [find?_updateFirst _ _ _ hf, htf]
    simp only [Option.map_some', hsec]
  · intro htotp hno
    simp only [htotp, Bool.false_eq_true, if_false, hno,
      bind, Except.bind, pure, Except.pure]
  · intro htotp hyes
    simp only [htotp, Bool.false_eq_true, if_false, hyes, if_true,
      bind, Except.bind, pure, Except.pure]
    refine ⟨_, rfl, ?_⟩
    have hf : ∀ a : TwoFARec,
        (fun t : TwoFARec => t.user_id == cu.id) { a with backup_codes := some (encrypt_sensitive_data key (.strList (codes.erase (pyUpper code)))), is_enabled := "true", last_used := some now } =
        (fun t : TwoFARec => t.user_id == cu.id) a := fun a => rfl
    show (updateFirst (fun t : TwoFARec => t.user_id == cu.id)
        _ db.twofa).find? (fun t => t.user_id == cu.id) = _
    rw [find?_updateFirst _ _ _ hf, htf]
    simp only [Option.map_some', hsec]

/-- Witness for C2, exercising both acceptance paths: eve's pending record
confirms with the currently valid TOTP code (backup codes untouched), and
separately with the backup code `"bbbb3333"` (which is consumed); both
enable 2FA. -/
theorem C2_witness :
    (∃ db2, verify_2fa c2db "TOTP.SECRETE.16" c2user none none 500 9 =
        .ok (.success false, db2) ∧
      db2.twofa.find? (fun t => t.user_id == c2user.id) =
        some { c2tfa with backup_codes := some (encrypt_sensitive_data 9 (.strList ["BBBB3333"])), is_enabled := "true", last_used := some 500 }) ∧
    (∃ db2, verify_2fa c2db "bbbb3333" c2user none none 500 9 =
        .ok (.success true, db2) ∧
      db2.twofa.find? (fun t => t.user_id == c2user.id) =
        some { c2tfa with backup_codes := some (encrypt_sensitive_data 9 (.strList (["BBBB3333"].erase (pyUpper "bbbb3333")))), is_enabled := "true", last_used := some 500 }) :=
  ⟨(C2_confirm_accepts_totp_or_backup c2db "TOTP.SECRETE.16" c2user none
      none 500 9 c2tfa "SECRETE" ["BBBB3333"] (by decide) (by decide) rfl
      rfl).1 (by decide),
   (C2_confirm_accepts_totp_or_backup c2db "bbbb3333" c2user none none 500
      9 c2tfa "SECRETE" ["BBBB3333"] (by decide) (by decide) rfl rfl).2.2
      (by decide) (by decide)⟩
